import Mathlib

/-!
Shallow embedding of `src/main.py` (rssfeed-scanner).

Modelling conventions:
- Network calls are modelled by oracle arguments.  A response of type
  `Option (Nat × Option β)` reads: the outer `none` is a transport-level
  exception raised by `requests.get` (which the Python code catches and
  logs, leaving `response = None`); `some (status, body)` is a received
  response with HTTP status code `status`; the inner `none` means the
  response body fails to parse (`response.json()` or `ET.fromstring`
  raises — those calls are NOT inside the `try` in the source), and
  `some b` is the successfully parsed payload.
- An uncaught Python exception is `Except.error`.
- Side effects are returned explicitly: the list of HTTP requests a
  component issues (as `(feed_url, disease_name)` pairs for feed queries)
  and the error-level log lines it emits.  Debug-level log lines are not
  modelled (they carry timing data irrelevant to every property here).
- `requests.codes.ok` is 200, and a `requests.Response` is truthy exactly
  when its status is below 400, so the guard
  `response and response.status_code == requests.codes.ok` is equivalent
  to: a response was received and its status is 200.
-/

/-- Characters of the literal URI base shared by `Base_tree_regex` and
`Descriptor_id_regex` in the source. -/
def meshBaseChars : List Char := "http://id.nlm.nih.gov/mesh/".toList

/-- Attempt to match `Descriptor_id_regex` = `http://id.nlm.nih.gov/mesh/(\D\d+)`
anchored at the head of `s`; returns group 1 (one non-digit character followed
by a maximal nonempty run of digits, `\d+` being greedy). -/
def descriptorIdAt (s : List Char) : Option (List Char) :=
  if s.take meshBaseChars.length = meshBaseChars then
    match s.drop meshBaseChars.length with
    | [] => none
    | c :: rest =>
      if c.isDigit then none
      else
        let ds := rest.takeWhile (fun d => d.isDigit)
        if ds.isEmpty then none else some (c :: ds)
  else none

/-- `Descriptor_id_regex.search`: leftmost match of the pattern anywhere in
the string, returning group 1. -/
def searchDescriptorId : List Char → Option (List Char)
  | [] => none
  | c :: rest =>
    match descriptorIdAt (c :: rest) with
    | some g => some g
    | none => searchDescriptorId rest

/-- Attempt to match `Base_tree_regex` = `http://id.nlm.nih.gov/mesh/([^.]+)`
anchored at the head of `s`; returns group 1 (a maximal nonempty run of
characters other than a dot). -/
def baseTreeAt (s : List Char) : Option (List Char) :=
  if s.take meshBaseChars.length = meshBaseChars then
    let g := (s.drop meshBaseChars.length).takeWhile (fun c => c ≠ '.')
    if g.isEmpty then none else some g
  else none

/-- `Base_tree_regex.search`: leftmost match anywhere in the string,
returning group 1. -/
def searchBaseTree : List Char → Option (List Char)
  | [] => none
  | c :: rest =>
    match baseTreeAt (c :: rest) with
    | some g => some g
    | none => searchBaseTree rest

/-- A MeSH descriptor as used by the source: the JSON entry's `resource`
URI and preferred `label`. -/
structure Descriptor where
  resource : String
  label : String
deriving DecidableEq, Repr

/-- `fetch_mesh_descriptor`.  The oracle `resp` is the outcome of the GET
against the descriptor-lookup endpoint; its parsed JSON body is a list of
descriptors.  The Python function returns `{}` (here `none`) unless a
200 response with a nonempty JSON array is received, in which case it
returns the first entry; a JSON body that fails to parse makes
`response.json()` raise (uncaught). -/
def fetch_mesh_descriptor (resp : Option (Nat × Option (List Descriptor))) :
    Except String (Option Descriptor) :=
  match resp with
  | none => .ok none
  | some (status, body) =>
    if status = 200 then
      match body with
      | none => .error "JSONDecodeError"
      | some response_json => .ok response_json.head?
    else .ok none

/-- `is_mesh_disease`.  The oracle `sparqlResp` is the outcome of the GET
against the SPARQL endpoint; its parsed body is the list of text values of
the `treeNum` binding `uri` nodes, in the response's (ascending) order.
The function fails closed to `false` everywhere except that a body which
`ET.fromstring` cannot parse raises (uncaught). -/
def is_mesh_disease (sparqlResp : Option (Nat × Option (List String)))
    (mesh_descriptor : Descriptor) : Except String Bool :=
  match searchDescriptorId mesh_descriptor.resource.toList with
  | none => .ok false
  | some _descriptor_id =>
    match sparqlResp with
    | none => .ok false
    | some (status, body) =>
      if status = 200 then
        match body with
        | none => .error "xml.etree.ElementTree.ParseError"
        | some treenum_uris =>
          match treenum_uris with
          | [] => .ok false
          | treenum_id :: _ =>
            match searchBaseTree treenum_id.toList with
            | none => .ok false
            | some base_tree =>
              .ok (base_tree.head? = some 'C')
      else .ok false

/-- The static `FeedQueryParams` table: query-parameter templates indexed
by feed URL.  The source configures exactly one feed. -/
def FeedQueryParams (feed_url : String) : Option String :=
  if feed_url = "https://clinicaltrials.gov/ct2/results/rss.xml" then
    some "lup_d={inactivity_period_days}&cond={disease}&count={limit}"
  else none

deriving instance DecidableEq for Except

/-- The observable outcome of one `count_channel_items` call: the feed
requests issued (as `(feed_url, disease_name)` pairs), the error-level log
lines emitted, and the returned `(count, certainty)` tuple (or the
uncaught exception). -/
structure CallOutcome where
  requests : List (String × String)
  logs : List String
  result : Except String (Nat × Bool)
deriving DecidableEq, Repr

/-- `count_channel_items`.  The oracle `net` gives, per feed URL, the
outcome of the GET; a parsed body is the number of `./channel/item`
elements found.  An unconfigured feed issues no request, logs an error
and yields `(0, false)`; a transport failure or a non-200 status yields
`(0, false)`; a 200 response whose body fails to parse raises
(`ET.fromstring` is outside the `try`); otherwise `(item count, true)`. -/
def count_channel_items (net : String → Option (Nat × Option Nat))
    (feed_url disease_name : String) (_inactivity_period_days : Nat) :
    CallOutcome :=
  match FeedQueryParams feed_url with
  | none =>
    { requests := []
      logs := ["No query params found for feed [" ++ feed_url ++
               "] while checking [" ++ disease_name ++ "]"]
      result := .ok (0, false) }
  | some _template =>
    match net feed_url with
    | none =>
      { requests := [(feed_url, disease_name)]
        logs := ["requests.get raised an exception"]
        result := .ok (0, false) }
    | some (status, body) =>
      if status = 200 then
        match body with
        | none =>
          { requests := [(feed_url, disease_name)]
            logs := []
            result := .error "xml.etree.ElementTree.ParseError" }
        | some count =>
          { requests := [(feed_url, disease_name)]
            logs := []
            result := .ok (count, true) }
      else
        { requests := [(feed_url, disease_name)]
          logs := []
          result := .ok (0, false) }

/-- The `FeedsIterator`-driven list comprehension in `check_disease_feeds`:
pull the next feed URL (unless the stop flag is set), query it, record the
`(count, certainty)` result, and set the stop flag when `count > 0` so
that no further URL is pulled.  Returns the requests issued, the logs
emitted, and the list of results produced (or the exception that escaped
the comprehension). -/
def runFeedsLoop (net : String → Option (Nat × Option Nat))
    (disease_name : String) (inactivity_period_days : Nat) :
    List String → List (String × String) × List String × Except String (List (Nat × Bool))
  | [] => ([], [], .ok [])
  | feed_url :: rest =>
    let c := count_channel_items net feed_url disease_name inactivity_period_days
    match c.result with
    | .error e => (c.requests, c.logs, .error e)
    | .ok r =>
      if 0 < r.1 then
        (c.requests, c.logs, .ok [r])
      else
        let out := runFeedsLoop net disease_name inactivity_period_days rest
        (c.requests ++ out.1, c.logs ++ out.2.1,
         match out.2.2 with
         | .error e => .error e
         | .ok l => .ok (r :: l))

/-- `functools.reduce` of
`lambda acc, arg: (acc[0] + arg[0], acc[1] and arg[1])` over the activity
list, with no initial value: the Python call raises `TypeError` on an
empty list and otherwise left-folds starting from the first element. -/
def reduceActivity : List (Nat × Bool) → Except String (Nat × Bool)
  | [] => .error "reduce of empty sequence with no initial value"
  | x :: xs => .ok (xs.foldl (fun acc arg => (acc.1 + arg.1, acc.2 && arg.2)) x)

/-- The per-disease outcome that `check_disease_feeds` logs: `inactive`
when the total is zero and certain, `indeterminate` when the total is zero
but uncertain, and `active` (no log line at all) when the total is
positive. -/
inductive Report where
  | inactive
  | indeterminate
  | active
deriving DecidableEq, Repr

/-- The logging decision at the end of `check_disease_feeds`. -/
def reportOf (aggregate : Nat × Bool) : Report :=
  if aggregate.1 = 0 then
    if aggregate.2 then .inactive else .indeterminate
  else .active

/-- `check_disease_feeds`: run the short-circuiting feed traversal, reduce
the produced activity list, and decide the report.  Returns the feed
requests issued, the error logs, and the report (or the uncaught
exception from the traversal or from `reduce` on an empty list). -/
def check_disease_feeds (net : String → Option (Nat × Option Nat))
    (disease_name : String) (feed_urls : List String)
    (inactivity_period_days : Nat) :
    List (String × String) × List String × Except String Report :=
  let out := runFeedsLoop net disease_name inactivity_period_days feed_urls
  (out.1, out.2.1, (out.2.2.bind reduceActivity).map reportOf)

/-- The outcome `check_disease_activity` reports for one work unit. -/
inductive UnitReport where
  | notRecognized
  | feedReport (r : Report)
deriving DecidableEq, Repr

/-- `check_disease_activity`: resolve the speculative disease name; if the
descriptor is empty or not classified as a disease, log the
"not a recognized MeSH disease descriptor name; skipping" warning and stop;
otherwise check the feeds under the descriptor's canonical label.
Returns the feed requests issued and the unit's outcome. -/
def check_disease_activity (lookupResp : Option (Nat × Option (List Descriptor)))
    (sparqlResp : Option (Nat × Option (List String)))
    (net : String → Option (Nat × Option Nat))
    (disease_name : String) (feed_urls : List String)
    (inactivity_period_days : Nat) :
    List (String × String) × Except String UnitReport :=
  match fetch_mesh_descriptor lookupResp with
  | .error e => ([], .error e)
  | .ok none => ([], .ok .notRecognized)
  | .ok (some mesh_descriptor) =>
    match is_mesh_disease sparqlResp mesh_descriptor with
    | .error e => ([], .error e)
    | .ok false => ([], .ok .notRecognized)
    | .ok true =>
      let out := check_disease_feeds net mesh_descriptor.label feed_urls
        inactivity_period_days
      (out.1, out.2.2.map .feedReport)

/-- The one configured feed URL from the source's `FeedQueryParams`. -/
def feedA : String := "https://clinicaltrials.gov/ct2/results/rss.xml"

/-- A feed URL absent from `FeedQueryParams`. -/
def feedB : String := "https://example.org/rss.xml"

/-- A network oracle in which every feed answers 200 with five parsed
channel items. -/
def netAB : String → Option (Nat × Option Nat) := fun _ => some (200, some 5)

/-- A network oracle in which every feed answers 200 with a body that
fails to parse as XML. -/
def netParseFail : String → Option (Nat × Option Nat) := fun _ => some (200, none)

/-- A concrete MeSH descriptor (Alzheimer Disease). -/
def sampleDescriptor : Descriptor :=
  { resource := "http://id.nlm.nih.gov/mesh/D000544", label := "Alzheimer Disease" }

/-- A descriptor-lookup response resolving to `sampleDescriptor`. -/
def lookupSample : Option (Nat × Option (List Descriptor)) :=
  some (200, some [sampleDescriptor])

/-- A SPARQL response whose first tree number lies in the Diseases
(`C`) tree. -/
def sparqlC : Option (Nat × Option (List String)) :=
  some (200, some ["http://id.nlm.nih.gov/mesh/C10.228"])

/-! ## Helper lemmas -/

/-- The fold used by `reduceActivity` sums the counts and ANDs the
certainty flags. -/
lemma foldl_activity (xs : List (Nat × Bool)) :
    ∀ acc : Nat × Bool,
      xs.foldl (fun acc arg => (acc.1 + arg.1, acc.2 && arg.2)) acc
        = (acc.1 + (xs.map Prod.fst).sum, acc.2 && xs.all Prod.snd) := by
  induction xs with
  | nil => intro acc; simp
  | cons x xs ih =>
    intro acc
    simp [List.foldl_cons, ih, Nat.add_assoc, Bool.and_assoc]

/-- Every request issued by one `count_channel_items` call carries the
disease name it was called with. -/
lemma count_channel_items_requests_name
    (net : String → Option (Nat × Option Nat)) (feed_url disease_name : String)
    (days : Nat) :
    ∀ q ∈ (count_channel_items net feed_url disease_name days).requests,
      q.2 = disease_name := by
  intro q hq
  rcases hcfg : FeedQueryParams feed_url with _ | t
  · simp [count_channel_items, hcfg] at hq
  · rcases hnet : net feed_url with _ | ⟨s, body⟩
    · simp [count_channel_items, hcfg, hnet] at hq
      simp [hq]
    · by_cases hs : s = 200
      · subst hs
        rcases body with _ | n <;>
          · simp [count_channel_items, hcfg, hnet] at hq
            simp [hq]
      · simp [count_channel_items, hcfg, hnet, hs] at hq
        simp [hq]

/-- Every feed request issued by the traversal in `check_disease_feeds`
carries the disease name the traversal was started with. -/
lemma runFeedsLoop_requests_name
    (net : String → Option (Nat × Option Nat)) (disease_name : String)
    (days : Nat) :
    ∀ feeds, ∀ q ∈ (runFeedsLoop net disease_name days feeds).1,
      q.2 = disease_name := by
  intro feeds
  induction feeds with
  | nil => intro q hq; simp [runFeedsLoop] at hq
  | cons u rest ih =>
    intro q hq
    rcases hres : (count_channel_items net u disease_name days).result with e | r
    · simp [runFeedsLoop, hres] at hq
      exact count_channel_items_requests_name net u disease_name days q hq
    · by_cases hr : 0 < r.1
      · simp [runFeedsLoop, hres, hr] at hq
        exact count_channel_items_requests_name net u disease_name days q hq
      · simp [runFeedsLoop, hres, hr] at hq
        rcases hq with hq | hq
        · exact count_channel_items_requests_name net u disease_name days q hq
        · exact ih q hq

/-! ## Claims -/

/-- C2: for every non-empty list of per-feed activity results actually
evaluated, the reduce yields the sum of the counts paired with the AND of
the certainty flags, and any single `false` certainty among them makes
the aggregate certainty `false`. -/
theorem C2_aggregate_fold (x : Nat × Bool) (xs : List (Nat × Bool)) :
    reduceActivity (x :: xs)
      = .ok ((List.map Prod.fst (x :: xs)).sum, List.all (x :: xs) Prod.snd)
    ∧ (∀ q ∈ x :: xs, q.2 = false → List.all (x :: xs) Prod.snd = false) := by
  constructor
  · simp [reduceActivity, foldl_activity]
  · intro q hq hq2
    simp only [List.all_eq_false]
    exact ⟨q, hq, by simp [hq2]⟩

/-- C2 witness: evaluating the reduce on `[(0, false), (0, true)]` gives
`(0, false)`. -/
theorem C2_witness : reduceActivity [(0, false), (0, true)] = .ok (0, false) := by
  have h := (C2_aggregate_fold (0, false) [(0, true)]).1
  simpa using h

/-- C9: on an empty feed list the traversal evaluates nothing and the
fold (`reduce` with no initial value) raises, so `check_disease_feeds`
raises instead of returning an aggregate result. -/
theorem C9_empty_feeds (net : String → Option (Nat × Option Nat))
    (disease_name : String) (days : Nat) :
    runFeedsLoop net disease_name days [] = ([], [], .ok [])
    ∧ reduceActivity [] = .error "reduce of empty sequence with no initial value"
    ∧ check_disease_feeds net disease_name [] days
        = ([], [], .error "reduce of empty sequence with no initial value") :=
  ⟨rfl, rfl, rfl⟩

/-- C7: a feed URL absent from `FeedQueryParams` issues no request, logs
an error, and yields `(0, false)`. -/
theorem C7_unconfigured (net : String → Option (Nat × Option Nat))
    (feed_url disease_name : String) (days : Nat)
    (h : FeedQueryParams feed_url = none) :
    count_channel_items net feed_url disease_name days
      = { requests := []
          logs := ["No query params found for feed [" ++ feed_url ++
                   "] while checking [" ++ disease_name ++ "]"]
          result := .ok (0, false) } := by
  simp [count_channel_items, h]

/-- C7 witness: the unconfigured `feedB` issues no request and yields
`(0, false)`. -/
theorem C7_witness :
    count_channel_items netAB feedB "Wolman Disease" 14
      = { requests := []
          logs := ["No query params found for feed [" ++ feedB ++
                   "] while checking [" ++ "Wolman Disease" ++ "]"]
          result := .ok (0, false) } :=
  C7_unconfigured netAB feedB "Wolman Disease" 14 rfl

/-- C3 counterexample: a 200 feed response whose body fails to parse makes
`count_channel_items` raise (`ET.fromstring` is outside the `try`) instead
of returning `(0, false)`. -/
theorem C3_counterexample :
    (count_channel_items netParseFail feedA "Alzheimer Disease" 14).result
        = .error "xml.etree.ElementTree.ParseError"
    ∧ (count_channel_items netParseFail feedA "Alzheimer Disease" 14).result
        ≠ .ok (0, false) :=
  ⟨rfl, by decide⟩

/-- C3 (amended): a transport failure or a non-success HTTP status on a
feed query yields `(0, false)` without raising; only a response-body parse
failure escapes as an exception. -/
theorem C3_failure_absorbed (net : String → Option (Nat × Option Nat))
    (feed_url disease_name : String) (days : Nat)
    (h : net feed_url = none
         ∨ ∃ s body, net feed_url = some (s, body) ∧ s ≠ 200) :
    (count_channel_items net feed_url disease_name days).result
      = .ok (0, false) := by
  rcases hcfg : FeedQueryParams feed_url with _ | t
  · simp [count_channel_items, hcfg]
  · rcases h with h | ⟨s, body, hs, hne⟩
    · simp [count_channel_items, hcfg, h]
    · simp [count_channel_items, hcfg, hs, hne]

/-- C3 witness: a transport failure on the configured feed yields
`(0, false)`. -/
theorem C3_witness :
    (count_channel_items (fun _ => none) feedA "Wolman Disease" 14).result
      = .ok (0, false) :=
  C3_failure_absorbed (fun _ => none) feedA "Wolman Disease" 14 (Or.inl rfl)

/-- C8 counterexample: a 200 lookup response whose body is not valid JSON
makes `fetch_mesh_descriptor` raise (`response.json()` is outside the
`try`), so a resolution failure can escape as an error. -/
theorem C8_counterexample :
    fetch_mesh_descriptor (some (200, none)) = .error "JSONDecodeError"
    ∧ fetch_mesh_descriptor (some (200, none)) ≠ .ok none :=
  ⟨rfl, by decide⟩

/-- C8 (amended): the resolver returns `none` on transport failure, on a
non-success response, and on a success with an empty result set, and the
first entry on a success with a non-empty result set; only a
response-body parse failure escapes as an error. -/
theorem C8_resolver :
    fetch_mesh_descriptor none = .ok none
    ∧ (∀ (s : Nat) (body : Option (List Descriptor)), s ≠ 200 →
        fetch_mesh_descriptor (some (s, body)) = .ok none)
    ∧ fetch_mesh_descriptor (some (200, some [])) = .ok none
    ∧ (∀ (d : Descriptor) (l : List Descriptor),
        fetch_mesh_descriptor (some (200, some (d :: l))) = .ok (some d)) := by
  refine ⟨rfl, ?_, rfl, fun d l => rfl⟩
  intro s body hs
  simp [fetch_mesh_descriptor, hs]

/-- C8 witness: a 404 lookup response resolves to `none` even when its
body holds a descriptor. -/
theorem C8_witness :
    fetch_mesh_descriptor (some (404, some [sampleDescriptor])) = .ok none :=
  C8_resolver.2.1 404 (some [sampleDescriptor]) (by decide)

/-- C1: the feed traversal stops immediately after the first feed whose
result has a positive count — the run over `pre ++ u :: post` equals the
run over `pre ++ [u]`, so no feed after `u` is ever queried — and on the
concrete feeds `[A, B]` where A answers five items, only A is queried and
the aggregate is `(5, true)`. -/
theorem C1_short_circuit :
    (∀ (net : String → Option (Nat × Option Nat)) (dn : String) (days : Nat)
        (pre : List String) (u : String) (post : List String),
        (∀ v ∈ pre, ∃ b, (count_channel_items net v dn days).result = .ok (0, b)) →
        (∃ c b, (count_channel_items net u dn days).result = .ok (c, b) ∧ 0 < c) →
        runFeedsLoop net dn days (pre ++ u :: post)
          = runFeedsLoop net dn days (pre ++ [u]))
    ∧ runFeedsLoop netAB "Alzheimer Disease" 14 [feedA, feedB]
        = ([(feedA, "Alzheimer Disease")], [], .ok [(5, true)])
    ∧ reduceActivity [(5, true)] = .ok (5, true) := by
  refine ⟨?_, rfl, rfl⟩
  intro net dn days pre
  induction pre with
  | nil =>
    intro u post _ hu
    obtain ⟨c, b, hres, hc⟩ := hu
    simp only [List.nil_append]
    simp [runFeedsLoop, hres, hc]
  | cons v vs ih =>
    intro u post h1 hu
    obtain ⟨b, hv⟩ := h1 v (by simp)
    have hrec := ih u post (fun w hw => h1 w (by simp [hw])) hu
    simp only [List.cons_append]
    simp [runFeedsLoop, hv, hrec]

/-- C1 witness: with feed A answering five items, running the traversal
over `[A, B]` equals running it over `[A]` alone. -/
theorem C1_witness :
    runFeedsLoop netAB "Alzheimer Disease" 14 [feedA, feedB]
      = runFeedsLoop netAB "Alzheimer Disease" 14 [feedA] := by
  have h := C1_short_circuit.1 netAB "Alzheimer Disease" 14 [] feedA [feedB]
    (by intro v hv; simp at hv) ⟨5, true, rfl, by decide⟩
  simpa using h

/-- C5: a work unit whose label resolves to no descriptor, or whose
descriptor is not classified as a disease, is reported as not recognized
and issues zero feed requests. -/
theorem C5_skip_unrecognized
    (lookupResp : Option (Nat × Option (List Descriptor)))
    (sparqlResp : Option (Nat × Option (List String)))
    (net : String → Option (Nat × Option Nat))
    (disease_name : String) (feed_urls : List String) (days : Nat)
    (h : fetch_mesh_descriptor lookupResp = .ok none
         ∨ ∃ d, fetch_mesh_descriptor lookupResp = .ok (some d)
             ∧ is_mesh_disease sparqlResp d = .ok false) :
    check_disease_activity lookupResp sparqlResp net disease_name feed_urls days
      = ([], .ok .notRecognized) := by
  rcases h with h | ⟨d, hd, hc⟩
  · simp [check_disease_activity, h]
  · simp [check_disease_activity, hd, hc]

/-- C5 witness: an unresolvable label (lookup transport failure) is
reported as not recognized with zero feed requests. -/
theorem C5_witness :
    check_disease_activity none none netAB "Cron Disease" [feedA] 14
      = ([], .ok .notRecognized) :=
  C5_skip_unrecognized none none netAB "Cron Disease" [feedA] 14 (Or.inl rfl)

/-- C10: every `(count, certainty)` pair `count_channel_items` returns has
a non-negative count; `certainty = false` forces `count = 0`; and
`certainty = true` arises only from a configured feed whose query
succeeded with status 200 and parsed to exactly `count` items. -/
theorem C10_certainty_invariant (net : String → Option (Nat × Option Nat))
    (feed_url disease_name : String) (days : Nat) (c : Nat) (b : Bool)
    (h : (count_channel_items net feed_url disease_name days).result = .ok (c, b)) :
    0 ≤ c
    ∧ (b = false → c = 0)
    ∧ (b = true → (FeedQueryParams feed_url).isSome
        ∧ net feed_url = some (200, some c)) := by
  refine ⟨Nat.zero_le c, ?_⟩
  rcases hcfg : FeedQueryParams feed_url with _ | t
  · simp [count_channel_items, hcfg] at h
    obtain ⟨rfl, rfl⟩ := h
    simp
  · rcases hnet : net feed_url with _ | ⟨s, body⟩
    · simp [count_channel_items, hcfg, hnet] at h
      obtain ⟨rfl, rfl⟩ := h
      simp
    · by_cases hs : s = 200
      · subst hs
        rcases body with _ | n
        · simp [count_channel_items, hcfg, hnet] at h
        · simp [count_channel_items, hcfg, hnet] at h
          obtain ⟨rfl, rfl⟩ := h
          simp [hcfg, hnet]
      · simp [count_channel_items, hcfg, hnet, hs] at h
        obtain ⟨rfl, rfl⟩ := h
        simp

/-- C10 witness: the certain result `(5, true)` on the configured feed
comes from a successful query that parsed five items. -/
theorem C10_witness : netAB feedA = some (200, some 5) :=
  ((C10_certainty_invariant netAB feedA "Alzheimer Disease" 14 5 true rfl).2.2 rfl).2

/-- C4 (amended): provided the SPARQL response body is parseable,
`is_mesh_disease` returns a boolean that is `true` exactly when the
descriptor's resource URI matches the identifier pattern, the tree-number
query succeeded with at least one tree-number URI, and the base tree of
the first tree number starts with the letter C; every other case fails
closed to `false`.  (A 200 response whose body fails to parse instead
raises — see the counterexample.) -/
theorem C4_classifier (sparqlResp : Option (Nat × Option (List String)))
    (d : Descriptor)
    (h : sparqlResp ≠ some (200, (none : Option (List String)))) :
    ∃ b, is_mesh_disease sparqlResp d = .ok b
      ∧ (b = true ↔
          (∃ g, searchDescriptorId d.resource.toList = some g)
          ∧ ∃ t rest, sparqlResp = some (200, some (t :: rest))
              ∧ ∃ bt, searchBaseTree t.toList = some bt ∧ bt.head? = some 'C') := by
  rcases hid : searchDescriptorId d.resource.toList with _ | g
  · have hid2 : searchDescriptorId d.resource.data = none := hid
    exact ⟨false, by simp [is_mesh_disease, hid2], by simp⟩
  · have hid2 : searchDescriptorId d.resource.data = some g := hid
    rcases sparqlResp with _ | ⟨s, body⟩
    · exact ⟨false, by simp [is_mesh_disease, hid2], by simp⟩
    · by_cases hs : s = 200
      · subst hs
        rcases body with _ | ts
        · exact absurd rfl h
        · rcases ts with _ | ⟨t, rest⟩
          · exact ⟨false, by simp [is_mesh_disease, hid2], by simp⟩
          · rcases hbt : searchBaseTree t.toList with _ | bt
            · have hbt2 : searchBaseTree t.data = none := hbt
              refine ⟨false, by simp [is_mesh_disease, hid2, hbt2], ?_⟩
              constructor
              · intro hb
                exact Bool.noConfusion hb
              · rintro ⟨-, t', rest', heq, bt', hbt', -⟩
                obtain ⟨rfl, rfl⟩ : t = t' ∧ rest = rest' := by
                  simpa using heq
                have hbt3 : searchBaseTree t.toList = some bt' := hbt'
                rw [hbt] at hbt3
                exact Option.noConfusion hbt3
            · have hbt2 : searchBaseTree t.data = some bt := hbt
              refine ⟨decide (bt.head? = some 'C'),
                by simp [is_mesh_disease, hid2, hbt2], ?_⟩
              constructor
              · intro hb
                exact ⟨⟨g, rfl⟩, t, rest, rfl, bt, hbt, by simpa using hb⟩
              · rintro ⟨-, t', rest', heq, bt', hbt', hC⟩
                obtain ⟨rfl, rfl⟩ : t = t' ∧ rest = rest' := by
                  simpa using heq
                have hbt3 : searchBaseTree t.toList = some bt' := hbt'
                rw [hbt] at hbt3
                obtain rfl := Option.some.inj hbt3
                simpa using hC
      · exact ⟨false, by simp [is_mesh_disease, hid2, hs], by simp [hs]⟩

/-- C4 witness: a transport failure on the tree-number query classifies as
not a disease. -/
theorem C4_witness : is_mesh_disease none sampleDescriptor = .ok false := by
  obtain ⟨b, hb, hiff⟩ := C4_classifier none sampleDescriptor (by simp)
  cases b with
  | false => exact hb
  | true =>
    obtain ⟨-, t, rest, heq, -⟩ := hiff.mp rfl
    exact Option.noConfusion heq

/-- C4 counterexample: a 200 SPARQL response whose body fails to parse
makes `is_mesh_disease` raise (`ET.fromstring` is outside the `try`)
instead of failing closed to `false`. -/
theorem C4_counterexample :
    is_mesh_disease (some (200, none)) sampleDescriptor
        = .error "xml.etree.ElementTree.ParseError"
    ∧ is_mesh_disease (some (200, none)) sampleDescriptor ≠ .ok false :=
  ⟨rfl, by decide⟩

/-- C6: the per-disease report is `inactive` exactly when the aggregate is
`(0, true)`, `indeterminate` exactly when it is `(0, false)`, and the
silent `active` outcome exactly when the count is positive; moreover, once
a disease is recognized, every feed request of the work unit carries the
descriptor's canonical label, and `check_disease_feeds` reports exactly
`reportOf` of the reduced aggregate. -/
theorem C6_reporting
    (lookupResp : Option (Nat × Option (List Descriptor)))
    (sparqlResp : Option (Nat × Option (List String)))
    (net : String → Option (Nat × Option Nat))
    (disease_name : String) (feed_urls : List String) (days : Nat)
    (d : Descriptor)
    (hres : fetch_mesh_descriptor lookupResp = .ok (some d))
    (hdis : is_mesh_disease sparqlResp d = .ok true) :
    (∀ q ∈ (check_disease_activity lookupResp sparqlResp net disease_name
        feed_urls days).1, q.2 = d.label)
    ∧ (∀ (n : Nat) (c : Bool),
        (reportOf (n, c) = .inactive ↔ n = 0 ∧ c = true)
        ∧ (reportOf (n, c) = .indeterminate ↔ n = 0 ∧ c = false)
        ∧ (reportOf (n, c) = .active ↔ 0 < n))
    ∧ (check_disease_feeds net d.label feed_urls days).2.2
        = ((runFeedsLoop net d.label days feed_urls).2.2.bind
            reduceActivity).map reportOf := by
  refine ⟨?_, ?_, rfl⟩
  · intro q hq
    simp only [check_disease_activity, hres, hdis, check_disease_feeds] at hq
    exact runFeedsLoop_requests_name net d.label days feed_urls q hq
  · intro n c
    rcases Nat.eq_zero_or_pos n with rfl | hn
    · cases c <;> simp [reportOf]
    · cases c <;> simp [reportOf, hn, Nat.pos_iff_ne_zero.mp hn]

/-- C6 witness: the report mapping at the three aggregate shapes, under a
recognized disease descriptor. -/
theorem C6_witness :
    reportOf (0, true) = Report.inactive
    ∧ reportOf (0, false) = Report.indeterminate
    ∧ reportOf (5, true) = Report.active := by
  have h := (C6_reporting lookupSample sparqlC netAB "alzheimers" [feedA] 14
    sampleDescriptor rfl (by decide)).2.1
  exact ⟨((h 0 true).1).mpr ⟨rfl, rfl⟩, ((h 0 false).2.1).mpr ⟨rfl, rfl⟩,
    ((h 5 true).2.2).mpr (by decide)⟩
